import Mathlib

/-!
Shallow embedding of `src/pokewatch/api/rate_limiter.py` (pokewatch).

Python floats are modelled as exact rationals (ℚ), the float value
`inf` returned by `time_until_tokens` as `none : Option ℚ`, wall-clock
time as an explicit `now : ℚ` argument threaded through each operation,
and the mutable object state as explicit state passing.  Header
dictionaries are modelled as association lists `List (String × ℤ)`
(the Python code stores `str(...)` of integers; we keep the integers).
-/

namespace Pokewatch

/-- Python `min(a, b)` on two numbers (returns the first on ties). -/
def pyMin (a b : ℚ) : ℚ := if a ≤ b then a else b

/-- Python `int(x)` on a float/rational: truncation toward zero. -/
def pyInt (q : ℚ) : ℤ := if 0 ≤ q then q.floor else q.ceil

/-- Python `b or d` for an `Optional[int]` `b`: `None` and `0` are falsy. -/
def pyOrInt (b : Option ℤ) (d : ℤ) : ℤ :=
  match b with
  | none => d
  | some v => if v = 0 then d else v

/-- State of `TokenBucket` (rate_limiter.py, lines 15–85). -/
structure TokenBucket where
  capacity : ℤ
  refill_rate : ℚ
  tokens : ℚ
  last_refill : ℚ
deriving Repr, DecidableEq

namespace TokenBucket

/-- `TokenBucket.__init__(capacity, refill_rate)` at wall-clock time `now`. -/
def init (capacity : ℤ) (refill_rate : ℚ) (now : ℚ) : TokenBucket :=
  { capacity := capacity
    refill_rate := refill_rate
    tokens := (capacity : ℚ)
    last_refill := now }

/-- `TokenBucket._refill` evaluated at wall-clock time `now`. -/
def refill (b : TokenBucket) (now : ℚ) : TokenBucket :=
  let elapsed := now - b.last_refill
  let tokens_to_add := elapsed * b.refill_rate
  { b with tokens := pyMin (b.capacity : ℚ) (b.tokens + tokens_to_add)
           last_refill := now }

/-- `TokenBucket.consume(tokens)` at time `now`; returns the Python
return value together with the post-state. -/
def consume (b : TokenBucket) (now : ℚ) (tokens : ℤ) : Bool × TokenBucket :=
  let b := b.refill now
  if (tokens : ℚ) ≤ b.tokens then (true, { b with tokens := b.tokens - (tokens : ℚ) })
  else (false, b)

/-- `TokenBucket.get_tokens()` at time `now`. -/
def get_tokens (b : TokenBucket) (now : ℚ) : ℚ × TokenBucket :=
  let b := b.refill now
  (b.tokens, b)

/-- `TokenBucket.time_until_tokens(tokens)` at time `now`;
`none` models the float `inf` returned when `refill_rate == 0`. -/
def time_until_tokens (b : TokenBucket) (now : ℚ) (tokens : ℤ) :
    Option ℚ × TokenBucket :=
  let b := b.refill now
  if (tokens : ℚ) ≤ b.tokens then (some 0, b)
  else if b.refill_rate = 0 then (none, b)
  else (some (((tokens : ℚ) - b.tokens) / b.refill_rate), b)

/-- The documented state invariant: `0 ≤ tokens ≤ capacity`. -/
def Inv (b : TokenBucket) : Prop := 0 ≤ b.tokens ∧ b.tokens ≤ (b.capacity : ℚ)

instance (b : TokenBucket) : Decidable b.Inv := by
  unfold Inv; infer_instance

end TokenBucket

/-- State of `RateLimiter` (rate_limiter.py, lines 88–208). -/
structure RateLimiter where
  enabled : Bool
  requests_per_minute : ℤ
  burst_size : ℤ
  refill_rate : ℚ
  buckets : String → Option TokenBucket

namespace RateLimiter

/-- `RateLimiter.__init__(requests_per_minute, burst_size, enabled)`:
`self.burst_size = burst_size or requests_per_minute` (Python truthiness),
`self.refill_rate = requests_per_minute / 60.0`, empty bucket map. -/
def init (requests_per_minute : ℤ) (burst_size : Option ℤ) (enabled : Bool) :
    RateLimiter :=
  { enabled := enabled
    requests_per_minute := requests_per_minute
    burst_size := pyOrInt burst_size requests_per_minute
    refill_rate := (requests_per_minute : ℚ) / 60
    buckets := fun _ => none }

/-- `RateLimiter._get_bucket(key)` at time `now` (a fresh bucket's
`last_refill` is the creation time). -/
def get_bucket (rl : RateLimiter) (key : String) (now : ℚ) :
    TokenBucket × RateLimiter :=
  match rl.buckets key with
  | some b => (b, rl)
  | none =>
    let b := TokenBucket.init rl.burst_size rl.refill_rate now
    (b, { rl with buckets := fun k => if k = key then some b else rl.buckets k })

/-- `RateLimiter.check_rate_limit(key)` at time `now`: returns
`(allowed, headers, post-state)`. -/
def check_rate_limit (rl : RateLimiter) (key : String) (now : ℚ) :
    Bool × List (String × ℤ) × RateLimiter :=
  if rl.enabled = false then (true, [], rl)
  else
    let gb := rl.get_bucket key now
    let bucket0 := gb.1
    let rl1 := gb.2
    let c := bucket0.consume now 1
    let allowed := c.1
    let bucket1 := c.2
    let g := bucket1.get_tokens now
    let remaining := pyInt g.1
    let bucket2 := g.2
    let tu := bucket2.time_until_tokens now 1
    let time_until := tu.1
    let bucket3 := tu.2
    let reset_time :=
      match time_until with
      | none => pyInt (now + 86400)
      | some t => pyInt (now + t)
    let headers := [("X-RateLimit-Limit", rl1.requests_per_minute),
                    ("X-RateLimit-Remaining", max 0 remaining),
                    ("X-RateLimit-Reset", reset_time)]
    let headers :=
      if allowed = false then
        let retry_after :=
          match time_until with
          | none => (86400 : ℤ)
          | some t => pyInt t + 1
        headers ++ [("Retry-After", retry_after)]
      else headers
    (allowed, headers,
      { rl1 with buckets := fun k => if k = key then some bucket3 else rl1.buckets k })

/-- Repeatedly apply `check_rate_limit` for one key at the given times. -/
def run_checks (rl : RateLimiter) (key : String) : List ℚ → RateLimiter
  | [] => rl
  | now :: rest => ((rl.check_rate_limit key now).2.2).run_checks key rest

/-- Repeatedly apply `check_rate_limit` for a list of (key, time) calls. -/
def run_calls (rl : RateLimiter) : List (String × ℚ) → RateLimiter
  | [] => rl
  | (key, now) :: rest => ((rl.check_rate_limit key now).2.2).run_calls rest

end RateLimiter

/-- `RedisRateLimiter.check_rate_limit_redis(key)` (rate_limiter.py,
lines 234–274), restricted to one client's sorted set, modelled as the
list of entry scores (each member is `str(score)`, so members are
determined by their scores; `zadd` with an existing member leaves the
set unchanged since the score re-added equals the member's score).
`zremrangebyscore(key, 0, now - window)` drops scores in
`[0, now - window]`; `zcard` counts before the `zadd`.  Returns
`(allowed, headers, post-entries)`. -/
def check_rate_limit_redis (enabled : Bool) (requests_per_minute : ℤ)
    (entries : List ℚ) (now : ℚ) : Bool × List (String × ℤ) × List ℚ :=
  if enabled = false then (true, [], entries)
  else
    let window : ℚ := 60
    let kept := entries.filter (fun s => !(decide (0 ≤ s) && decide (s ≤ now - window)))
    let current_count : ℤ := (kept.length : ℤ)
    let added := if now ∈ kept then kept else kept ++ [now]
    let allowed := decide (current_count < requests_per_minute)
    let remaining := max 0 (requests_per_minute - current_count - 1)
    let reset_time := pyInt (now + window)
    let headers := [("X-RateLimit-Limit", requests_per_minute),
                    ("X-RateLimit-Remaining", remaining),
                    ("X-RateLimit-Reset", reset_time)]
    let headers :=
      if allowed = false then headers ++ [("Retry-After", (60 : ℤ))]
      else headers
    (allowed, headers, added)

end Pokewatch

namespace Pokewatch

/-- `_refill` does not change the refill rate. -/
theorem TokenBucket.refill_rate_refill (b : TokenBucket) (now : ℚ) :
    (b.refill now).refill_rate = b.refill_rate := rfl

/-- `_refill` does not change the capacity. -/
theorem TokenBucket.capacity_refill (b : TokenBucket) (now : ℚ) :
    (b.refill now).capacity = b.capacity := rfl

/-! ## Claims -/

/-- C4: For every `TokenBucket` and positive integer `n`, `consume n`
(after its internal refill) succeeds and decreases the token level by
exactly `n` when the post-refill level is at least `n` (an exactly-`n`
level admits a request of size `n`), and returns `false` leaving the
level unchanged when the post-refill level is strictly below `n`. -/
theorem consume_boundary_exact (b : TokenBucket) (now : ℚ) (n : ℤ) (hn : 1 ≤ n) :
    (((n : ℚ) ≤ (b.refill now).tokens →
        b.consume now n =
          (true, { b.refill now with tokens := (b.refill now).tokens - (n : ℚ) })) ∧
     ((b.refill now).tokens < (n : ℚ) →
        b.consume now n = (false, b.refill now))) := by
  constructor
  · intro h
    simp [TokenBucket.consume, h]
  · intro h
    simp [TokenBucket.consume, not_le.mpr h]

theorem consume_boundary_exact_witness :
    ((1 : ℤ) ≤ 1 ∧
      (TokenBucket.init 10 1 0).consume 0 1 =
        (true, { capacity := 10, refill_rate := 1, tokens := 9, last_refill := 0 })) := by
  refine ⟨le_rfl, ?_⟩
  have h := (consume_boundary_exact (TokenBucket.init 10 1 0) 0 1 le_rfl).1
    (by norm_num [TokenBucket.refill, TokenBucket.init, pyMin])
  rw [h]
  norm_num [TokenBucket.refill, TokenBucket.init, pyMin]

/-- C6: With `enabled = false`, `check_rate_limit` returns `(true, {})`
with an empty header map, and the limiter state — in particular the
`buckets` mapping — is returned completely unchanged: no bucket is
created for an unseen key and no existing bucket is modified. -/
theorem disabled_bypasses (rl : RateLimiter) (key : String) (now : ℚ)
    (h : rl.enabled = false) :
    rl.check_rate_limit key now = (true, [], rl) := by
  simp [RateLimiter.check_rate_limit, h]

def rlDisabled : RateLimiter := RateLimiter.init 60 (some 10) false

theorem disabled_bypasses_witness :
    rlDisabled.check_rate_limit "unseen" 5 = (true, [], rlDisabled) :=
  disabled_bypasses rlDisabled "unseen" 5 rfl

/-- C10: Passing an explicit `burst_size = 0` to the constructor does
not yield capacity-0 buckets: Python truthiness in
`burst_size or requests_per_minute` treats `0` like `None`, so the
effective burst size is `requests_per_minute` whenever it is positive
(and in particular nonzero). -/
theorem burst_size_zero_truthiness (rpm : ℤ) (h : 0 < rpm) :
    ((RateLimiter.init rpm (some 0) true).burst_size = rpm ∧
     (RateLimiter.init rpm (some 0) true).burst_size =
       (RateLimiter.init rpm none true).burst_size ∧
     (RateLimiter.init rpm (some 0) true).burst_size ≠ 0) := by
  refine ⟨?_, ?_, ?_⟩ <;> simp [RateLimiter.init, pyOrInt] <;> omega

theorem burst_size_zero_truthiness_witness :
    ((0 : ℤ) < 60 ∧
     ((RateLimiter.init 60 (some 0) true).burst_size = 60 ∧
      (RateLimiter.init 60 (some 0) true).burst_size =
        (RateLimiter.init 60 none true).burst_size ∧
      (RateLimiter.init 60 (some 0) true).burst_size ≠ 0)) :=
  ⟨by decide, burst_size_zero_truthiness 60 (by decide)⟩

/-- C8: For every `TokenBucket` and positive integer `n`,
`time_until_tokens n` returns `0` when the post-refill level is at
least `n`; when the level is below `n` and the refill rate is positive
it returns a `v` with `tokens + v * refill_rate = n` exactly; and when
the level is below `n` and the refill rate is `0` it returns the
infinity sentinel (`none`). -/
theorem time_until_tokens_spec (b : TokenBucket) (now : ℚ) (n : ℤ) (hn : 1 ≤ n) :
    ((((n : ℚ) ≤ (b.refill now).tokens →
        (b.time_until_tokens now n).1 = some 0)) ∧
     ((b.refill now).tokens < (n : ℚ) → 0 < b.refill_rate →
        ∃ v, (b.time_until_tokens now n).1 = some v ∧
          (b.refill now).tokens + v * b.refill_rate = (n : ℚ)) ∧
     ((b.refill now).tokens < (n : ℚ) → b.refill_rate = 0 →
        (b.time_until_tokens now n).1 = none)) := by
  refine ⟨?_, ?_, ?_⟩
  · intro h
    simp [TokenBucket.time_until_tokens, h]
  · intro h hr
    refine ⟨((n : ℚ) - (b.refill now).tokens) / b.refill_rate, ?_, ?_⟩
    · simp only [TokenBucket.time_until_tokens, TokenBucket.refill_rate_refill]
      rw [if_neg (not_le.mpr h), if_neg hr.ne']
    · field_simp
  · intro h hr
    simp only [TokenBucket.time_until_tokens, TokenBucket.refill_rate_refill]
    rw [if_neg (not_le.mpr h), if_pos hr]

theorem time_until_tokens_spec_witness :
    (((TokenBucket.init 10 1 0).time_until_tokens 0 1).1 = some 0 ∧
     ((TokenBucket.init 0 0 0).time_until_tokens 0 1).1 = none) :=
  ⟨(time_until_tokens_spec (TokenBucket.init 10 1 0) 0 1 le_rfl).1
      (by norm_num [TokenBucket.refill, TokenBucket.init, pyMin]),
   (time_until_tokens_spec (TokenBucket.init 0 0 0) 0 1 le_rfl).2.2
      (by norm_num [TokenBucket.refill, TokenBucket.init, pyMin]) rfl⟩

/-- A reachable limiter state for exercising the rejected branch of
`check_rate_limit`: the bucket for `"client"` holds half a token. -/
def rlHalf : RateLimiter :=
  { enabled := true, requests_per_minute := 60, burst_size := 10, refill_rate := 1,
    buckets := fun k => if k = "client" then
      some { capacity := 10, refill_rate := 1, tokens := 1/2, last_refill := 5 } else none }

/-- C1 counterexample: a rejected check with `refill_rate = 1 > 0` and
`time_until_tokens 1 = 1/2` produces `Retry-After = int(1/2) + 1 = 1`,
whereas `ceil(1/2) + 1 = 2`; so the claimed `ceil`-based formula is
false on the code (Python `int()` truncates, it does not round up). -/
theorem retry_after_not_ceil_counterexample :
    ((rlHalf.check_rate_limit "client" 5).1 = false ∧
     0 < rlHalf.refill_rate ∧
     ((rlHalf.check_rate_limit "client" 5).2.1).lookup "Retry-After" = some 1 ∧
     ((((rlHalf.get_bucket "client" 5).1.consume 5 1).2.get_tokens
         5).2.time_until_tokens 5 1).1 = some (1/2) ∧
     (⌈(1/2 : ℚ)⌉ + 1 : ℤ) ≠ 1) := by
  refine ⟨?_, ?_, ?_, ?_, ?_⟩
  · norm_num [RateLimiter.check_rate_limit, RateLimiter.get_bucket, rlHalf,
      TokenBucket.consume, TokenBucket.refill, TokenBucket.get_tokens,
      TokenBucket.time_until_tokens, pyMin, pyInt]
  · norm_num [rlHalf]
  · norm_num [RateLimiter.check_rate_limit, RateLimiter.get_bucket, rlHalf,
      TokenBucket.consume, TokenBucket.refill, TokenBucket.get_tokens,
      TokenBucket.time_until_tokens, pyMin, pyInt, List.lookup, Rat.floor]
    decide
  · norm_num [RateLimiter.get_bucket, rlHalf, TokenBucket.consume,
      TokenBucket.refill, TokenBucket.get_tokens, TokenBucket.time_until_tokens, pyMin]
  · have : (⌈(1/2 : ℚ)⌉ : ℤ) = 1 := by
      rw [Int.ceil_eq_iff] <;> norm_num
    rw [this]
    norm_num

/-- C1 (amended): whenever an enabled `check_rate_limit` returns
`allowed = false`, the header map contains `Retry-After` whose value is
the Python `int()` truncation of `time_until_tokens 1` plus 1 (not its
ceiling plus 1), falling back to 86400 when `time_until_tokens 1` is
the infinity sentinel (refill rate 0). -/
theorem retry_after_truncation (rl : RateLimiter) (key : String) (now : ℚ)
    (he : rl.enabled = true) (hd : (rl.check_rate_limit key now).1 = false) :
    ((rl.check_rate_limit key now).2.1).lookup "Retry-After" =
      some (match ((((rl.get_bucket key now).1.consume now 1).2.get_tokens
                      now).2.time_until_tokens now 1).1 with
            | none => (86400 : ℤ)
            | some t => pyInt t + 1) := by
  simp only [RateLimiter.check_rate_limit, he, Bool.true_eq_false, if_false] at hd ⊢
  rw [hd]
  simp only [if_pos rfl, List.lookup]
  have e1 : (("Retry-After" : String) == "X-RateLimit-Limit") = false := rfl
  have e2 : (("Retry-After" : String) == "X-RateLimit-Remaining") = false := rfl
  have e3 : (("Retry-After" : String) == "X-RateLimit-Reset") = false := rfl
  have e4 : (("Retry-After" : String) == "Retry-After") = true := rfl
  simp only [e1, e2, e3, e4]

theorem retry_after_truncation_witness :
    ((rlHalf.check_rate_limit "client" 5).2.1).lookup "Retry-After" = some 1 := by
  have h := retry_after_truncation rlHalf "client" 5 rfl
    (by norm_num [RateLimiter.check_rate_limit, RateLimiter.get_bucket, rlHalf,
      TokenBucket.consume, TokenBucket.refill, TokenBucket.get_tokens,
      TokenBucket.time_until_tokens, pyMin, pyInt])
  rw [h]
  norm_num [RateLimiter.get_bucket, rlHalf, TokenBucket.consume, TokenBucket.refill,
    TokenBucket.get_tokens, TokenBucket.time_until_tokens, pyMin, pyInt, Rat.floor]


/-- C2 counterexample: with limit 1 and one in-window entry (score 10),
a check at `now = 20` finds a pre-insertion count of 1, which is not
strictly below the limit, yet the entry timestamped 20 is still added:
the post-state is `[10, 20]`, not the unchanged `[10]` the claim
requires.  The `zadd` in the pipeline is unconditional. -/
theorem redis_add_counterexample :
    ((check_rate_limit_redis true 1 [10] 20).1 = false ∧
     (([(10 : ℚ)].filter
         (fun s => !(decide (0 ≤ s) && decide (s ≤ (20 : ℚ) - 60)))).length = 1) ∧
     (check_rate_limit_redis true 1 [10] 20).2.2 = [10, 20] ∧
     (check_rate_limit_redis true 1 [10] 20).2.2 ≠ [10]) := by
  refine ⟨?_, ?_, ?_, ?_⟩ <;>
    norm_num [check_rate_limit_redis, List.filter, List.mem_cons]

/-- C2 (amended): on every enabled sliding-window check a new entry
timestamped `now` is added to the client's set unconditionally — also
when the pre-insertion in-window count is at or above the limit (the
only case with no new element is an already-present identical member);
`allowed` is still computed from the pre-insertion count. -/
theorem redis_unconditional_add (rpm : ℤ) (entries : List ℚ) (now : ℚ) :
    (now ∈ (check_rate_limit_redis true rpm entries now).2.2 ∧
     (check_rate_limit_redis true rpm entries now).2.2 =
       (if now ∈ entries.filter
            (fun s => !(decide (0 ≤ s) && decide (s ≤ now - 60)))
        then entries.filter (fun s => !(decide (0 ≤ s) && decide (s ≤ now - 60)))
        else entries.filter
            (fun s => !(decide (0 ≤ s) && decide (s ≤ now - 60))) ++ [now]) ∧
     (check_rate_limit_redis true rpm entries now).1 =
       decide (((entries.filter
          (fun s => !(decide (0 ≤ s) && decide (s ≤ now - 60)))).length : ℤ) < rpm)) := by
  refine ⟨?_, rfl, rfl⟩
  simp only [check_rate_limit_redis, Bool.true_eq_false, if_false]
  split
  · assumption
  · exact List.mem_append.mpr (Or.inr (List.mem_singleton.mpr rfl))

/-- C3 counterexample: on a full bucket (10 of 10 tokens),
`consume (-5)` takes the success branch (`-5 ≤ 10`) and subtracts a
negative number, leaving 15 tokens in a capacity-10 bucket — the
`0 ≤ tokens ≤ capacity` invariant is corrupted by `n ≤ 0`. -/
theorem consume_negative_breaks_inv :
    ((TokenBucket.init 10 1 0).Inv ∧
     ((TokenBucket.init 10 1 0).consume 0 (-5)).2.tokens = 15 ∧
     ((TokenBucket.init 10 1 0).consume 0 (-5)).2.capacity = 10 ∧
     ¬ ((TokenBucket.init 10 1 0).consume 0 (-5)).2.Inv) := by
  refine ⟨?_, ?_, ?_, ?_⟩ <;>
    norm_num [TokenBucket.Inv, TokenBucket.consume, TokenBucket.refill,
      TokenBucket.init, pyMin]

/-- Helper: `_refill` preserves the invariant when capacity and refill
rate are nonnegative and the clock did not go backwards. -/
theorem TokenBucket.refill_inv (b : TokenBucket) (now : ℚ) (hcap : 0 ≤ b.capacity)
    (hrate : 0 ≤ b.refill_rate) (hnow : b.last_refill ≤ now) (h : b.Inv) :
    (b.refill now).Inv := by
  have hadd : 0 ≤ (now - b.last_refill) * b.refill_rate :=
    mul_nonneg (by linarith) hrate
  have hcap' : (0 : ℚ) ≤ (b.capacity : ℚ) := by exact_mod_cast hcap
  unfold TokenBucket.refill
  simp only [TokenBucket.Inv, pyMin]
  split
  · exact ⟨hcap', le_rfl⟩
  · exact ⟨by linarith [h.1], le_of_lt (not_le.mp (by assumption))⟩

/-- Helper: the bucket returned by `time_until_tokens` is exactly the
refilled bucket, in every branch. -/
theorem TokenBucket.time_until_tokens_snd (b : TokenBucket) (now : ℚ) (m : ℤ) :
    (b.time_until_tokens now m).2 = b.refill now := by
  unfold TokenBucket.time_until_tokens
  dsimp only
  split
  · rfl
  · split <;> rfl

/-- C3 (amended): given nonnegative capacity and refill rate and a
non-decreasing clock, the invariant `0 ≤ tokens ≤ capacity` is
preserved by `_refill`, by `get_tokens`, by `time_until_tokens m` for
every integer `m`, and by `consume n` for every integer `n ≥ 0`; for
negative `n`, `consume` corrupts the state (see the counterexample). -/
theorem bucket_ops_preserve_inv (b : TokenBucket) (now : ℚ) (n m : ℤ)
    (hcap : 0 ≤ b.capacity) (hrate : 0 ≤ b.refill_rate)
    (hnow : b.last_refill ≤ now) (hb : b.Inv) (hn : 0 ≤ n) :
    ((b.refill now).Inv ∧ ((b.consume now n).2).Inv ∧
     ((b.get_tokens now).2).Inv ∧ ((b.time_until_tokens now m).2).Inv) := by
  have hr := TokenBucket.refill_inv b now hcap hrate hnow hb
  have hn' : (0 : ℚ) ≤ (n : ℚ) := by exact_mod_cast hn
  refine ⟨hr, ?_, hr, ?_⟩
  · unfold TokenBucket.consume
    dsimp only
    split
    · rename_i hle
      constructor
      · show (0 : ℚ) ≤ (b.refill now).tokens - (n : ℚ)
        linarith
      · show (b.refill now).tokens - (n : ℚ) ≤ ((b.refill now).capacity : ℚ)
        linarith [hr.2]
    · exact hr
  · rw [TokenBucket.time_until_tokens_snd]
    exact hr

theorem bucket_ops_preserve_inv_witness :
    (((TokenBucket.init 10 1 0).refill 2).Inv ∧
     (((TokenBucket.init 10 1 0).consume 2 1).2).Inv ∧
     (((TokenBucket.init 10 1 0).get_tokens 2).2).Inv ∧
     (((TokenBucket.init 10 1 0).time_until_tokens 2 1).2).Inv) :=
  bucket_ops_preserve_inv (TokenBucket.init 10 1 0) 2 1 1
    (by norm_num [TokenBucket.init]) (by norm_num [TokenBucket.init])
    (by norm_num [TokenBucket.init])
    (by norm_num [TokenBucket.Inv, TokenBucket.init]) (by norm_num)


/-- The limiter of C5: `requests_per_minute = 60`, `burst_size = 10`. -/
def rlBurst : RateLimiter := RateLimiter.init 60 (some 10) true

set_option maxHeartbeats 4000000 in
/-- C5: with `requests_per_minute = 60` and `burst_size = 10`, for a
fresh key and no time elapsing, the first 10 `check_rate_limit` calls
return `allowed = true`, and the 11th returns `allowed = false` with a
`Retry-After` header present. -/
theorem fresh_key_burst_ten :
    ((∀ i : Fin 10,
        ((rlBurst.run_checks "fresh" (List.replicate i.1 0)).check_rate_limit
            "fresh" 0).1 = true) ∧
     ((rlBurst.run_checks "fresh" (List.replicate 10 0)).check_rate_limit
         "fresh" 0).1 = false ∧
     (((rlBurst.run_checks "fresh" (List.replicate 10 0)).check_rate_limit
         "fresh" 0).2.1).lookup "Retry-After" ≠ none) := by
  refine ⟨?_, ?_, ?_⟩
  · intro i
    fin_cases i <;>
      norm_num [RateLimiter.run_checks, RateLimiter.check_rate_limit,
        RateLimiter.get_bucket, RateLimiter.init, TokenBucket.init,
        TokenBucket.consume, TokenBucket.refill, TokenBucket.get_tokens,
        TokenBucket.time_until_tokens, pyMin, pyInt, pyOrInt, rlBurst,
        List.replicate, Rat.floor]
  · norm_num [RateLimiter.run_checks, RateLimiter.check_rate_limit,
      RateLimiter.get_bucket, RateLimiter.init, TokenBucket.init,
      TokenBucket.consume, TokenBucket.refill, TokenBucket.get_tokens,
      TokenBucket.time_until_tokens, pyMin, pyInt, pyOrInt, rlBurst,
      List.replicate, Rat.floor]
  · norm_num [RateLimiter.run_checks, RateLimiter.check_rate_limit,
      RateLimiter.get_bucket, RateLimiter.init, TokenBucket.init,
      TokenBucket.consume, TokenBucket.refill, TokenBucket.get_tokens,
      TokenBucket.time_until_tokens, pyMin, pyInt, pyOrInt, rlBurst,
      List.replicate, Rat.floor, List.lookup]
    decide


/-- The limiter of C7: `requests_per_minute = 0`, default burst size. -/
def rlZero : RateLimiter := RateLimiter.init 0 none true

/-- The bucket state reached under an rpm-0 configuration. -/
def zeroBucket (now : ℚ) : TokenBucket :=
  { capacity := 0, refill_rate := 0, tokens := 0, last_refill := now }

/-- Invariant of a limiter built with `requests_per_minute = 0`:
enabled, zero burst and refill rate, and every existing bucket has
capacity, refill rate and token level 0. -/
def ZeroCfg (rl : RateLimiter) : Prop :=
  rl.enabled = true ∧ rl.burst_size = 0 ∧ rl.refill_rate = 0 ∧
  ∀ k b, rl.buckets k = some b →
    b.capacity = 0 ∧ b.refill_rate = 0 ∧ b.tokens = 0

/-- Helper: refilling a zeroed bucket yields the zeroed bucket. -/
theorem zero_bucket_refill (b : TokenBucket) (now : ℚ)
    (h : b.capacity = 0 ∧ b.refill_rate = 0 ∧ b.tokens = 0) :
    b.refill now = zeroBucket now := by
  obtain ⟨h1, h2, h3⟩ := h
  unfold TokenBucket.refill pyMin zeroBucket
  simp [h1, h2, h3]

/-- Helper: one step of `check_rate_limit` under `ZeroCfg`: rejected,
`Retry-After = 86400`, and `ZeroCfg` is preserved. -/
theorem zero_cfg_check (rl : RateLimiter) (key : String) (now : ℚ)
    (h : ZeroCfg rl) :
    ((rl.check_rate_limit key now).1 = false ∧
     ((rl.check_rate_limit key now).2.1).lookup "Retry-After" = some 86400 ∧
     ZeroCfg (rl.check_rate_limit key now).2.2) := by
  obtain ⟨he, hbs, hrr, hbuckets⟩ := h
  have hb0 : ((rl.get_bucket key now).1.capacity = 0 ∧
      (rl.get_bucket key now).1.refill_rate = 0 ∧
      (rl.get_bucket key now).1.tokens = 0) := by
    unfold RateLimiter.get_bucket
    cases hk : rl.buckets key with
    | some b => simpa using hbuckets key b hk
    | none => simp [TokenBucket.init, hbs, hrr]
  have hrefill := zero_bucket_refill _ now hb0
  have hrefill2 : (zeroBucket now).refill now = zeroBucket now :=
    zero_bucket_refill _ now ⟨rfl, rfl, rfl⟩
  have hcon : (rl.get_bucket key now).1.consume now 1 = (false, zeroBucket now) := by
    unfold TokenBucket.consume
    dsimp only
    rw [hrefill]
    norm_num [zeroBucket]
  have hget : (zeroBucket now).get_tokens now = (0, zeroBucket now) := by
    unfold TokenBucket.get_tokens
    dsimp only
    rw [hrefill2]
    simp [zeroBucket]
  have htut : (zeroBucket now).time_until_tokens now 1 = (none, zeroBucket now) := by
    unfold TokenBucket.time_until_tokens
    dsimp only
    rw [hrefill2]
    norm_num [zeroBucket]
  have hrl1e : (rl.get_bucket key now).2.enabled = rl.enabled := by
    unfold RateLimiter.get_bucket
    cases hk : rl.buckets key <;> rfl
  have hrl1k : ∀ k, k ≠ key → (rl.get_bucket key now).2.buckets k = rl.buckets k := by
    intro k hkk
    unfold RateLimiter.get_bucket
    cases hk : rl.buckets key with
    | some b => rfl
    | none => simp [hkk]
  refine ⟨?_, ?_, ?_⟩
  · simp only [RateLimiter.check_rate_limit, he, Bool.true_eq_false, if_false]
    try dsimp only
    rw [hcon]
  · simp only [RateLimiter.check_rate_limit, he, Bool.true_eq_false, if_false]
    try dsimp only
    rw [hcon]
    try dsimp only
    rw [hget]
    try dsimp only
    rw [htut]
    try dsimp only
    simp only [if_pos rfl, List.lookup]
    have e1 : (("Retry-After" : String) == "X-RateLimit-Limit") = false := rfl
    have e2 : (("Retry-After" : String) == "X-RateLimit-Remaining") = false := rfl
    have e3 : (("Retry-After" : String) == "X-RateLimit-Reset") = false := rfl
    have e4 : (("Retry-After" : String) == "Retry-After") = true := rfl
    simp only [e1, e2, e3, e4]
  · simp only [RateLimiter.check_rate_limit, he, Bool.true_eq_false, if_false]
    try dsimp only
    rw [hcon]
    try dsimp only
    rw [hget]
    try dsimp only
    rw [htut]
    try dsimp only
    refine ⟨?_, ?_, ?_, ?_⟩
    · show (rl.get_bucket key now).2.enabled = true
      rw [hrl1e]; exact he
    · show (rl.get_bucket key now).2.burst_size = 0
      unfold RateLimiter.get_bucket
      cases hk : rl.buckets key <;> simpa using hbs
    · show (rl.get_bucket key now).2.refill_rate = 0
      unfold RateLimiter.get_bucket
      cases hk : rl.buckets key <;> simpa using hrr
    · intro k b hkb
      dsimp only at hkb
      by_cases hkk : k = key
      · subst hkk
        simp only [if_pos rfl] at hkb
        cases hkb
        exact ⟨rfl, rfl, rfl⟩
      · rw [if_neg hkk] at hkb
        exact hbuckets k b (by rw [← hrl1k k hkk]; exact hkb)

/-- Helper: `ZeroCfg` is preserved by any sequence of checks. -/
theorem zero_cfg_run (calls : List (String × ℚ)) :
    ∀ rl, ZeroCfg rl → ZeroCfg (rl.run_calls calls) := by
  induction calls with
  | nil => intro rl h; exact h
  | cons c rest ih =>
    intro rl h
    obtain ⟨key, now⟩ := c
    exact ih _ (zero_cfg_check rl key now h).2.2

/-- C7: a limiter constructed with `requests_per_minute = 0` (default
burst size) rejects every check — after any prior call sequence, a
check for any key returns `allowed = false` with `Retry-After = 86400`
(the refill rate is 0, so `time_until_tokens` is the infinity
sentinel). -/
theorem rpm_zero_rejects_every_call (calls : List (String × ℚ))
    (key : String) (now : ℚ) :
    (((rlZero.run_calls calls).check_rate_limit key now).1 = false ∧
     (((rlZero.run_calls calls).check_rate_limit key now).2.1).lookup "Retry-After"
        = some 86400) := by
  have h0 : ZeroCfg rlZero := by
    refine ⟨rfl, rfl, ?_, ?_⟩
    · show ((0 : ℤ) : ℚ) / 60 = 0
      norm_num
    · intro k b hk
      simp [rlZero, RateLimiter.init] at hk
  have h := zero_cfg_run calls rlZero h0
  exact ⟨(zero_cfg_check _ key now h).1, (zero_cfg_check _ key now h).2.1⟩

/-- Helper: the bucket `check_rate_limit` operates on, as a function of
the stored map entry. -/
theorem get_bucket_fst (rl : RateLimiter) (key : String) (now : ℚ) :
    (rl.get_bucket key now).1 =
      (match rl.buckets key with
       | some b => b
       | none => TokenBucket.init rl.burst_size rl.refill_rate now) := by
  unfold RateLimiter.get_bucket
  cases rl.buckets key <;> rfl

/-- Helper: the admission outcome of `check_rate_limit`. -/
theorem check_fst_eq (rl : RateLimiter) (key : String) (now : ℚ) :
    (rl.check_rate_limit key now).1 =
      (if rl.enabled = false then true
       else ((rl.get_bucket key now).1.consume now 1).1) := by
  unfold RateLimiter.check_rate_limit
  split <;> rfl

/-- Helper: a check for key `A` leaves the map entry of any other key
`B` untouched. -/
theorem check_buckets_other (rl : RateLimiter) (A : String) (now : ℚ) (B : String)
    (hBA : B ≠ A) :
    ((rl.check_rate_limit A now).2.2).buckets B = rl.buckets B := by
  unfold RateLimiter.check_rate_limit
  split
  · rfl
  · dsimp only
    rw [if_neg hBA]
    unfold RateLimiter.get_bucket
    cases hk : rl.buckets A with
    | some b => rfl
    | none => simp [hBA]

/-- Helper: a check leaves the limiter configuration untouched. -/
theorem check_config (rl : RateLimiter) (key : String) (now : ℚ) :
    (((rl.check_rate_limit key now).2.2).enabled = rl.enabled ∧
     ((rl.check_rate_limit key now).2.2).burst_size = rl.burst_size ∧
     ((rl.check_rate_limit key now).2.2).refill_rate = rl.refill_rate) := by
  unfold RateLimiter.check_rate_limit RateLimiter.get_bucket
  split
  · exact ⟨rfl, rfl, rfl⟩
  · cases hk : rl.buckets key <;> exact ⟨rfl, rfl, rfl⟩

/-- Helper: the admission outcome depends only on the configuration and
the checked key's own map entry. -/
theorem check_fst_congr (rl1 rl2 : RateLimiter) (key : String) (now : ℚ)
    (he : rl1.enabled = rl2.enabled) (hb : rl1.burst_size = rl2.burst_size)
    (hr : rl1.refill_rate = rl2.refill_rate)
    (hk : rl1.buckets key = rl2.buckets key) :
    (rl1.check_rate_limit key now).1 = (rl2.check_rate_limit key now).1 := by
  rw [check_fst_eq, check_fst_eq, get_bucket_fst, get_bucket_fst, he, hb, hr, hk]

/-- Helper: any sequence of checks for `A` preserves `B`'s map entry
and the configuration. -/
theorem run_checks_frame (A B : String) (hBA : B ≠ A) :
    ∀ (nows : List ℚ) (rl : RateLimiter),
      ((rl.run_checks A nows).buckets B = rl.buckets B ∧
       (rl.run_checks A nows).enabled = rl.enabled ∧
       (rl.run_checks A nows).burst_size = rl.burst_size ∧
       (rl.run_checks A nows).refill_rate = rl.refill_rate) := by
  intro nows
  induction nows with
  | nil => intro rl; exact ⟨rfl, rfl, rfl, rfl⟩
  | cons t rest ih =>
    intro rl
    have hb := check_buckets_other rl A t B hBA
    have hc := check_config rl A t
    have h := ih ((rl.check_rate_limit A t).2.2)
    exact ⟨h.1.trans hb, h.2.1.trans hc.1, h.2.2.1.trans hc.2.1, h.2.2.2.trans hc.2.2⟩

/-- C9: rate limiting is independent per key: any sequence of checks
for key `A` (at arbitrary times) leaves the bucket stored for a
distinct key `B` — or its absence — unchanged, and the admission
outcome of a subsequent check for `B` is the same as if the checks for
`A` had never happened. -/
theorem per_key_independence (rl : RateLimiter) (A B : String) (nows : List ℚ)
    (now : ℚ) (hAB : A ≠ B) :
    ((rl.run_checks A nows).buckets B = rl.buckets B ∧
     ((rl.run_checks A nows).check_rate_limit B now).1
        = (rl.check_rate_limit B now).1) := by
  have h := run_checks_frame A B (Ne.symm hAB) nows rl
  exact ⟨h.1, check_fst_congr _ _ B now h.2.1 h.2.2.1 h.2.2.2 h.1⟩

/-- A limiter with burst 2, used to exhaust key A's quota in the C9
witness scenario. -/
def rlPair : RateLimiter := RateLimiter.init 60 (some 2) true

theorem per_key_independence_witness :
    (("A" : String) ≠ "B") ∧
    ((rlPair.run_checks "A" [0, 0, 0]).buckets "B" = rlPair.buckets "B" ∧
     ((rlPair.run_checks "A" [0, 0, 0]).check_rate_limit "B" 0).1
        = (rlPair.check_rate_limit "B" 0).1) :=
  ⟨by decide, per_key_independence rlPair "A" "B" [0, 0, 0] 0 (by decide)⟩

end Pokewatch
